import Mathlib

/-!
Shallow embedding of `adsbcot/commands.py` (the orchestrator `main` and the
CLI entry point `cli`) as trace-producing pure functions.

The orchestrator is straight-line async code; we model every externally
observable action it performs (connecting, printing, constructing workers,
starting tasks, enqueueing the hello event, waiting) as an `Effect`, and
`main` returns the list of effects it performs together with how it ends
(normal return, raised exception, unbound-variable error, unpacking error).
The bodies of the worker tasks themselves (`*.run()`) are external to
`commands.py` and are not part of the orchestrator trace; in particular a
connection to the ADS-B source would only ever happen inside the net
receiver task after it is started.
-/

namespace Adsbcot

/-- Model of the Python substring test `needle in hay` on strings:
`needle` occurs contiguously in `hay` (the empty needle always occurs). -/
def containsSub (needle : List Char) : List Char → Bool
  | [] => needle.isEmpty
  | c :: rest => needle.isPrefixOf (c :: rest) || containsSub needle rest

/-- `pyContains hay needle` is Python `needle in hay` for strings. -/
def pyContains (hay needle : String) : Bool :=
  containsSub needle.toList hay.toList

/-- The four tasks `main` can start: the ADSBNetReceiver task (line 83) and
the message/read/write worker tasks (lines 95-97). -/
inductive TaskId
  | netReceiver
  | messageWorker
  | readWorker
  | writeWorker

deriving instance DecidableEq, Repr for TaskId

/-- The `return_when` mode handed to `asyncio.wait` (line 99 uses
`FIRST_COMPLETED`). -/
inductive WaitMode
  | firstCompleted
  | allCompleted

deriving instance DecidableEq, Repr for WaitMode

/-- How a completed task finished; `asyncio.wait(..., FIRST_COMPLETED)`
returns on either, and lines 101-102 print the task either way. -/
inductive TaskOutcome
  | success
  | failure

deriving instance DecidableEq, Repr for TaskOutcome

/-- Externally observable actions of `main` (and the prints of `cli`). -/
inductive Effect
  | connectCot
  | connectSource
  | printMsg (msg : String)
  | constructADSBWorker
  | constructADSBNetReceiver (dataType : String)
  | constructADSBNetWorker (dataType : String)
  | startTask (t : TaskId)
  | cancelTask (t : TaskId)
  | putHello
  | wait (mode : WaitMode) (tasks : List TaskId)
  | reportDone (t : TaskId) (o : TaskOutcome)

deriving instance DecidableEq, Repr for Effect

/-- How `main` ends: a normal return after the wait; the explicit
`raise Exception` of the missing-pyModeS check (line 72); the
UnboundLocalError of referencing the never-assigned `message_worker`
(line 95) when neither scheme branch was taken; or the ValueError of the
tuple unpacking `_, data_type = scheme.split("+")` (line 77) when the split
yields more than two parts. -/
inductive MainResult
  | normal
  | raisedException
  | nameError
  | valueError

deriving instance DecidableEq, Repr for MainResult

/-- Split a character list at every occurrence of `sep`, keeping empty
pieces, as Python `str.split` does for a one-character separator. -/
def splitOnChar (sep : Char) : List Char → List (List Char)
  | [] => [[]]
  | c :: rest =>
    if c = sep then [] :: splitOnChar sep rest
    else
      match splitOnChar sep rest with
      | [] => [[c]]
      | g :: gs => (c :: g) :: gs

/-- Model of Python `s.split(sep)` for a one-character separator `sep`. -/
def pySplit (s : String) (sep : Char) : List String :=
  (splitOnChar sep s.toList).map fun cs => String.mk cs

/-- Lines 76-79 of `main`: `if "+" in scheme: _, data_type = scheme.split("+")
else: data_type = "raw"`.  The two-element tuple unpacking raises ValueError
when the split does not yield exactly two parts. -/
def dataTypeOf (scheme : String) : Except Unit String :=
  if pyContains scheme "+" then
    match pySplit scheme '+' with
    | [_, d] => Except.ok d
    | _ => Except.error ()
  else Except.ok "raw"

/-- The four diagnostic prints of the missing-pyModeS check (lines 68-71). -/
def pymodesErrorPrints : List Effect :=
  [Effect.printMsg "ERROR from adsbcot",
   Effect.printMsg "Please reinstall adsbcot with pyModeS support: ",
   Effect.printMsg "$ pip3 install -U adsbcot[with_pymodes]",
   Effect.printMsg "Exiting..."]

/-- Lines 101-102: `for task in done: print(...)` — one report per completed
task, printed whatever its outcome was. -/
def reportEffects (done : List (TaskId × TaskOutcome)) : List Effect :=
  done.map fun p => Effect.reportDone p.1 p.2

/-- The orchestrator `main` of `commands.py` (lines 41-102), as a function of
the parsed source URL scheme (`urlparse(opts.get("DUMP1090_URL")).scheme`),
the module-level `with_pymodes` flag, and the set of tasks `asyncio.wait`
reports as done (with their outcomes).  Returns the trace of effects in
program order, and how the coroutine ends.

Line-by-line: line 48 `await pytak.protocol_factory(cot_url)` is
`connectCot`; line 58 tests `"http" in scheme`, constructing `ADSBWorker`;
line 66 tests `"tcp" in scheme`; line 67 checks `with_pymodes`, printing and
raising when absent; lines 76-79 compute `data_type`; line 81 constructs
`ADSBNetReceiver`; line 83 starts its task; lines 85-91 construct
`ADSBNetWorker`; line 93 puts the hello event on `tx_queue`; lines 95-97
start the message/read/write worker tasks; line 99 waits with
`FIRST_COMPLETED` on the set of started tasks; lines 101-102 print each done
task.  When neither branch assigns `message_worker`, line 93 still runs and
line 95 raises referencing the unbound variable. -/
def main (scheme : String) (withPyModes : Bool)
    (done : List (TaskId × TaskOutcome)) : List Effect × MainResult :=
  if pyContains scheme "http" then
    ([Effect.connectCot,
      Effect.constructADSBWorker,
      Effect.putHello,
      Effect.startTask TaskId.messageWorker,
      Effect.startTask TaskId.readWorker,
      Effect.startTask TaskId.writeWorker,
      Effect.wait WaitMode.firstCompleted
        [TaskId.messageWorker, TaskId.readWorker, TaskId.writeWorker]]
      ++ reportEffects done,
     MainResult.normal)
  else if pyContains scheme "tcp" then
    if withPyModes = false then
      ([Effect.connectCot] ++ pymodesErrorPrints, MainResult.raisedException)
    else
      match dataTypeOf scheme with
      | Except.error _ => ([Effect.connectCot], MainResult.valueError)
      | Except.ok dt =>
        ([Effect.connectCot,
          Effect.constructADSBNetReceiver dt,
          Effect.startTask TaskId.netReceiver,
          Effect.constructADSBNetWorker dt,
          Effect.putHello,
          Effect.startTask TaskId.messageWorker,
          Effect.startTask TaskId.readWorker,
          Effect.startTask TaskId.writeWorker,
          Effect.wait WaitMode.firstCompleted
            [TaskId.netReceiver, TaskId.messageWorker, TaskId.readWorker,
             TaskId.writeWorker]]
          ++ reportEffects done,
         MainResult.normal)
  else
    ([Effect.connectCot, Effect.putHello], MainResult.nameError)

/-- The resolved configuration fields `cli` inspects (lines 124-146): the
`ChainMap` lookups of `COT_URL`, `DUMP1090_URL` and `FILTER_FILE`.  `none`
models an absent key; Python truthiness also treats the empty string as
missing. -/
structure Config where
  cotUrl : Option String
  dump1090Url : Option String
  filterFile : Option String

/-- Python truthiness of `combined_config.get(key)`: absent (None) and the
empty string are falsy. -/
def truthy : Option String → Bool
  | none => false
  | some s => s != ""

/-- How the `cli` entry point ends: an explicit `sys.exit(code)`, or it ran
`main` to its end. -/
inductive CliOutcome
  | exited (code : Nat)
  | finishedMain (r : MainResult)

deriving instance DecidableEq, Repr for CliOutcome

/-- The `cli` entry point (lines 105-155), from the point where the combined
configuration is resolved: the FILTER_FILE print (line 128), the two
missing-URL checks with their diagnostics and `sys.exit(1)` (lines 134-146),
then `asyncio.run(main(...))`.  `dumpScheme` stands for
`urlparse(DUMP1090_URL).scheme`, computed inside `main` from the config.
The printed URL examples are abridged to their first clause. -/
def cli (cfg : Config) (dumpScheme : String) (withPyModes : Bool)
    (done : List (TaskId × TaskOutcome)) : List Effect × CliOutcome :=
  let filterTrace :=
    if truthy cfg.filterFile then [Effect.printMsg (cfg.filterFile.getD "")]
    else []
  if truthy cfg.cotUrl = false then
    (filterTrace ++
      [Effect.printMsg "Please specify a CoT Destination URL",
       Effect.printMsg "See -h for help."],
     CliOutcome.exited 1)
  else if truthy cfg.dump1090Url = false then
    (filterTrace ++
      [Effect.printMsg "Please specify a Dump1090 Source URL",
       Effect.printMsg "See -h for help."],
     CliOutcome.exited 1)
  else
    let m := main dumpScheme withPyModes done
    (filterTrace ++ m.1, CliOutcome.finishedMain m.2)

example : pyContains "tcp+beast" "tcp" = true := by decide

example : pyContains "https" "http" = true := by decide

example : pyContains "tcp+beast" "http" = false := by decide

example : dataTypeOf "tcp+beast" = Except.ok "beast" := by rfl

example : dataTypeOf "tcp" = Except.ok "raw" := by rfl

example : dataTypeOf "tcp+avr+x" = Except.error () := by rfl

example : (main "tcp+beast" false []).2 = MainResult.raisedException := by decide

/-- C1: counterexample.  With source scheme "tcp+beast" and pyModeS absent,
the run does print the missing-dependency diagnostic and end in the raised
exception, but the connection to the CoT destination has already been made —
it is the very first effect of the trace — contradicting the claim that the
process terminates before connecting to the CoT destination. -/
theorem c1_counterexample :
    (main "tcp+beast" false []).2 = MainResult.raisedException ∧
    Effect.printMsg "ERROR from adsbcot" ∈ (main "tcp+beast" false []).1 ∧
    Effect.connectCot ∈ (main "tcp+beast" false []).1 ∧
    (main "tcp+beast" false []).1.head? = some Effect.connectCot := by
  decide

/-- C1 (amended): with a tcp-family (not http-family) source scheme and
pyModeS absent, `main` prints the missing-optional-dependency diagnostic and
raises, before starting any worker task and hence before any connection to
the source could exist — but only after the connection to the CoT
destination has been established. -/
theorem c1_amended_fail_fast (scheme : String)
    (done : List (TaskId × TaskOutcome))
    (hhttp : pyContains scheme "http" = false)
    (htcp : pyContains scheme "tcp" = true) :
    main scheme false done
      = ([Effect.connectCot] ++ pymodesErrorPrints, MainResult.raisedException) ∧
    (∀ t, Effect.startTask t ∉ (main scheme false done).1) ∧
    Effect.connectSource ∉ (main scheme false done).1 ∧
    Effect.connectCot ∈ (main scheme false done).1 ∧
    Effect.printMsg "ERROR from adsbcot" ∈ (main scheme false done).1 := by
  simp [main, hhttp, htcp, pymodesErrorPrints]

/-- C1 witness: the amended statement evaluated at scheme "tcp". -/
theorem c1_amended_witness :
    main "tcp" false []
      = ([Effect.connectCot] ++ pymodesErrorPrints, MainResult.raisedException) ∧
    (∀ t, Effect.startTask t ∉ (main "tcp" false []).1) ∧
    Effect.connectSource ∉ (main "tcp" false []).1 ∧
    Effect.connectCot ∈ (main "tcp" false []).1 ∧
    Effect.printMsg "ERROR from adsbcot" ∈ (main "tcp" false []).1 :=
  c1_amended_fail_fast "tcp" [] (by decide) (by decide)

/-- C4: scheme dispatch selects exactly one ingestion strategy.  An
http-family scheme constructs the poll-variant `ADSBWorker` and neither the
net receiver nor the stream worker; a tcp-family scheme (with pyModeS
present and a well-formed sub-format tag) constructs and starts the
`ADSBNetReceiver` and constructs the stream-variant `ADSBNetWorker`, both
with the same sub-format tag, and never the poll-variant worker. -/
theorem c4_scheme_dispatch (scheme : String) (withPyModes : Bool)
    (done : List (TaskId × TaskOutcome)) (dt : String) :
    (pyContains scheme "http" = true →
      Effect.constructADSBWorker ∈ (main scheme withPyModes done).1 ∧
      Effect.startTask TaskId.netReceiver ∉ (main scheme withPyModes done).1 ∧
      (∀ d, Effect.constructADSBNetReceiver d ∉ (main scheme withPyModes done).1) ∧
      (∀ d, Effect.constructADSBNetWorker d ∉ (main scheme withPyModes done).1)) ∧
    (pyContains scheme "http" = false → pyContains scheme "tcp" = true →
      withPyModes = true → dataTypeOf scheme = Except.ok dt →
      Effect.constructADSBNetReceiver dt ∈ (main scheme withPyModes done).1 ∧
      Effect.constructADSBNetWorker dt ∈ (main scheme withPyModes done).1 ∧
      Effect.startTask TaskId.netReceiver ∈ (main scheme withPyModes done).1 ∧
      Effect.constructADSBWorker ∉ (main scheme withPyModes done).1) := by
  constructor
  · intro h1
    simp [main, h1, reportEffects]
  · intro h1 h2 h3 h4
    subst h3
    simp [main, h1, h2, h4, reportEffects]

/-- C4 witness: the tcp branch evaluated at scheme "tcp+beast". -/
theorem c4_witness :
    Effect.constructADSBNetReceiver "beast" ∈ (main "tcp+beast" true []).1 ∧
    Effect.constructADSBNetWorker "beast" ∈ (main "tcp+beast" true []).1 ∧
    Effect.startTask TaskId.netReceiver ∈ (main "tcp+beast" true []).1 ∧
    Effect.constructADSBWorker ∉ (main "tcp+beast" true []).1 :=
  (c4_scheme_dispatch "tcp+beast" true [] "beast").2
    (by decide) (by decide) rfl (by rfl)

/-- C5: counterexample.  "tcp+avr+x" is a tcp-family scheme containing "+",
so the claim says the substring after the "+" is passed as the sub-format
tag; instead the two-element unpacking of `scheme.split("+")` raises a
ValueError and the run dies having performed only the CoT connection — no
receiver or worker is constructed, so no tag is passed at all. -/
theorem c5_counterexample :
    pyContains "tcp+avr+x" "tcp" = true ∧
    pyContains "tcp+avr+x" "http" = false ∧
    pyContains "tcp+avr+x" "+" = true ∧
    main "tcp+avr+x" true [] = ([Effect.connectCot], MainResult.valueError) := by
  decide

/-- C5 (amended): for a tcp-family scheme (pyModeS present), if the scheme
has no "+" the tag handed to both the net receiver and the stream worker is
"raw"; if the split at "+" yields exactly two parts the tag is the part
after the "+"; and if the split yields more than two parts the tuple
unpacking raises a ValueError and nothing is constructed. -/
theorem c5_amended_data_type (scheme : String)
    (done : List (TaskId × TaskOutcome)) (a b : String)
    (hhttp : pyContains scheme "http" = false)
    (htcp : pyContains scheme "tcp" = true) :
    (pyContains scheme "+" = false →
      Effect.constructADSBNetReceiver "raw" ∈ (main scheme true done).1 ∧
      Effect.constructADSBNetWorker "raw" ∈ (main scheme true done).1) ∧
    (pyContains scheme "+" = true → pySplit scheme '+' = [a, b] →
      Effect.constructADSBNetReceiver b ∈ (main scheme true done).1 ∧
      Effect.constructADSBNetWorker b ∈ (main scheme true done).1) ∧
    (pyContains scheme "+" = true → 2 < (pySplit scheme '+').length →
      (main scheme true done).2 = MainResult.valueError ∧
      (∀ d, Effect.constructADSBNetReceiver d ∉ (main scheme true done).1)) := by
  refine ⟨?_, ?_, ?_⟩
  · intro hp
    have hdt : dataTypeOf scheme = Except.ok "raw" := by
      simp [dataTypeOf, hp]
    simp [main, hhttp, htcp, hdt, reportEffects]
  · intro hp hsplit
    have hdt : dataTypeOf scheme = Except.ok b := by
      simp [dataTypeOf, hp, hsplit]
    simp [main, hhttp, htcp, hdt, reportEffects]
  · intro hp hlen
    have hdt : dataTypeOf scheme = Except.error () := by
      simp only [dataTypeOf, hp, if_true]
      cases hsp : pySplit scheme '+' with
      | nil => rfl
      | cons x xs =>
        cases xs with
        | nil => rfl
        | cons y ys =>
          cases ys with
          | nil =>
            rw [hsp] at hlen
            simp at hlen
          | cons z zs => rfl
    simp [main, hhttp, htcp, hdt]

/-- C5 witness: the amended statement evaluated at scheme "tcp+beast" with
split parts "tcp" and "beast". -/
theorem c5_amended_witness :
    (pyContains "tcp+beast" "+" = false →
      Effect.constructADSBNetReceiver "raw" ∈ (main "tcp+beast" true []).1 ∧
      Effect.constructADSBNetWorker "raw" ∈ (main "tcp+beast" true []).1) ∧
    (pyContains "tcp+beast" "+" = true →
      pySplit "tcp+beast" '+' = ["tcp", "beast"] →
      Effect.constructADSBNetReceiver "beast" ∈ (main "tcp+beast" true []).1 ∧
      Effect.constructADSBNetWorker "beast" ∈ (main "tcp+beast" true []).1) ∧
    (pyContains "tcp+beast" "+" = true →
      2 < (pySplit "tcp+beast" '+').length →
      (main "tcp+beast" true []).2 = MainResult.valueError ∧
      (∀ d, Effect.constructADSBNetReceiver d ∉ (main "tcp+beast" true []).1)) :=
  c5_amended_data_type "tcp+beast" [] "tcp" "beast" (by decide) (by decide)

/-- C8: for a source scheme containing neither "http" nor "tcp", `main`
surfaces no configuration error: it still connects to the CoT destination
and enqueues the hello event, and then dies with the unbound-variable error
when line 95 references the never-assigned `message_worker` — so no task is
ever started. -/
theorem c8_unbound_worker (scheme : String) (withPyModes : Bool)
    (done : List (TaskId × TaskOutcome))
    (hhttp : pyContains scheme "http" = false)
    (htcp : pyContains scheme "tcp" = false) :
    main scheme withPyModes done
      = ([Effect.connectCot, Effect.putHello], MainResult.nameError) := by
  simp [main, hhttp, htcp]

/-- C8 witness: the statement evaluated at scheme "udp". -/
theorem c8_witness :
    main "udp" true []
      = ([Effect.connectCot, Effect.putHello], MainResult.nameError) :=
  c8_unbound_worker "udp" true [] (by decide) (by decide)

/-- C9: dispatch is by substring containment and the "http" test comes
first: every scheme whose string contains "http" — whether or not it also
contains "tcp" — constructs the poll-variant worker and never the net
receiver or the stream worker. -/
theorem c9_http_substring_precedence (scheme : String) (withPyModes : Bool)
    (done : List (TaskId × TaskOutcome))
    (h : pyContains scheme "http" = true) :
    Effect.constructADSBWorker ∈ (main scheme withPyModes done).1 ∧
    Effect.startTask TaskId.netReceiver ∉ (main scheme withPyModes done).1 ∧
    (∀ d, Effect.constructADSBNetReceiver d ∉ (main scheme withPyModes done).1) ∧
    (∀ d, Effect.constructADSBNetWorker d ∉ (main scheme withPyModes done).1) := by
  simp [main, h, reportEffects]

/-- C9 witness: the statement evaluated at scheme "tcp+http", which contains
both "tcp" and "http" and still selects the poll variant. -/
theorem c9_witness :
    Effect.constructADSBWorker ∈ (main "tcp+http" true []).1 ∧
    Effect.startTask TaskId.netReceiver ∉ (main "tcp+http" true []).1 ∧
    (∀ d, Effect.constructADSBNetReceiver d ∉ (main "tcp+http" true []).1) ∧
    (∀ d, Effect.constructADSBNetWorker d ∉ (main "tcp+http" true []).1) :=
  c9_http_substring_precedence "tcp+http" true [] (by decide)

/-- C2: whenever `main` reaches its wait (every run that returns normally),
the wait uses the FIRST_COMPLETED mode, it is the only wait in the trace,
and everything after it is exactly one completion report per finished task —
so no task is started again (no restart) and no task is ever cancelled. -/
theorem c2_fail_fast_wait (scheme : String) (withPyModes : Bool)
    (done : List (TaskId × TaskOutcome))
    (h : (main scheme withPyModes done).2 = MainResult.normal) :
    ∃ pre ts,
      (main scheme withPyModes done).1
        = pre ++ Effect.wait WaitMode.firstCompleted ts :: reportEffects done ∧
      (∀ m ts2, Effect.wait m ts2 ∉ pre) ∧
      (∀ t, Effect.startTask t ∉
        Effect.wait WaitMode.firstCompleted ts :: reportEffects done) ∧
      (∀ t, Effect.cancelTask t ∉ (main scheme withPyModes done).1) := by
  cases h1 : pyContains scheme "http" with
  | true =>
    refine ⟨[Effect.connectCot, Effect.constructADSBWorker, Effect.putHello,
      Effect.startTask TaskId.messageWorker, Effect.startTask TaskId.readWorker,
      Effect.startTask TaskId.writeWorker],
      [TaskId.messageWorker, TaskId.readWorker, TaskId.writeWorker],
      ?_, ?_, ?_, ?_⟩
    · simp [main, h1]
    · intro m ts2
      simp
    · intro t
      simp [reportEffects]
    · intro t
      simp [main, h1, reportEffects]
  | false =>
    cases h2 : pyContains scheme "tcp" with
    | true =>
      cases withPyModes with
      | false => simp [main, h1, h2] at h
      | true =>
        cases hdt : dataTypeOf scheme with
        | error e => simp [main, h1, h2, hdt] at h
        | ok dt =>
          refine ⟨[Effect.connectCot, Effect.constructADSBNetReceiver dt,
            Effect.startTask TaskId.netReceiver, Effect.constructADSBNetWorker dt,
            Effect.putHello, Effect.startTask TaskId.messageWorker,
            Effect.startTask TaskId.readWorker, Effect.startTask TaskId.writeWorker],
            [TaskId.netReceiver, TaskId.messageWorker, TaskId.readWorker,
             TaskId.writeWorker],
            ?_, ?_, ?_, ?_⟩
          · simp [main, h1, h2, hdt]
          · intro m ts2
            simp
          · intro t
            simp [reportEffects]
          · intro t
            simp [main, h1, h2, hdt, reportEffects]
    | false => simp [main, h1, h2] at h

/-- C2 witness: the statement evaluated at scheme "http" with the read
worker reported as the first (failed) completion. -/
theorem c2_witness :
    ∃ pre ts,
      (main "http" true [(TaskId.readWorker, TaskOutcome.failure)]).1
        = pre ++ Effect.wait WaitMode.firstCompleted ts ::
            reportEffects [(TaskId.readWorker, TaskOutcome.failure)] ∧
      (∀ m ts2, Effect.wait m ts2 ∉ pre) ∧
      (∀ t, Effect.startTask t ∉
        Effect.wait WaitMode.firstCompleted ts ::
          reportEffects [(TaskId.readWorker, TaskOutcome.failure)]) ∧
      (∀ t, Effect.cancelTask t ∉
        (main "http" true [(TaskId.readWorker, TaskOutcome.failure)]).1) :=
  c2_fail_fast_wait "http" true [(TaskId.readWorker, TaskOutcome.failure)]
    (by decide)

/-- C3: if the resolved configuration is missing (or has an empty) CoT
destination URL or ADS-B source URL, `cli` prints a diagnostic and exits
with status 1 before the pipeline: no task is started and no ingestion
worker of either variant is constructed. -/
theorem c3_missing_url_exits (cfg : Config) (dumpScheme : String)
    (withPyModes : Bool) (done : List (TaskId × TaskOutcome))
    (h : truthy cfg.cotUrl = false ∨ truthy cfg.dump1090Url = false) :
    (cli cfg dumpScheme withPyModes done).2 = CliOutcome.exited 1 ∧
    Effect.printMsg "See -h for help." ∈ (cli cfg dumpScheme withPyModes done).1 ∧
    (∀ t, Effect.startTask t ∉ (cli cfg dumpScheme withPyModes done).1) ∧
    Effect.constructADSBWorker ∉ (cli cfg dumpScheme withPyModes done).1 ∧
    (∀ d, Effect.constructADSBNetWorker d ∉ (cli cfg dumpScheme withPyModes done).1) := by
  cases hf : truthy cfg.filterFile with
  | false =>
    cases hc : truthy cfg.cotUrl with
    | false => simp [cli, hc, hf]
    | true =>
      rcases h with h | h
      · rw [hc] at h
        exact absurd h (by simp)
      · simp [cli, hc, hf, h]
  | true =>
    cases hc : truthy cfg.cotUrl with
    | false => simp [cli, hc, hf]
    | true =>
      rcases h with h | h
      · rw [hc] at h
        exact absurd h (by simp)
      · simp [cli, hc, hf, h]

/-- C3 witness: the statement evaluated at a configuration with no CoT
destination URL. -/
theorem c3_witness :
    (cli (Config.mk none (some "http://piaware:8080") none) "http" true []).2
      = CliOutcome.exited 1 ∧
    Effect.printMsg "See -h for help."
      ∈ (cli (Config.mk none (some "http://piaware:8080") none) "http" true []).1 ∧
    (∀ t, Effect.startTask t
      ∉ (cli (Config.mk none (some "http://piaware:8080") none) "http" true []).1) ∧
    Effect.constructADSBWorker
      ∉ (cli (Config.mk none (some "http://piaware:8080") none) "http" true []).1 ∧
    (∀ d, Effect.constructADSBNetWorker d
      ∉ (cli (Config.mk none (some "http://piaware:8080") none) "http" true []).1) :=
  c3_missing_url_exits (Config.mk none (some "http://piaware:8080") none)
    "http" true [] (Or.inl (by decide))

/-- C6: in every run that enters the pipeline, exactly one hello event is
put on the outbound queue, and it is put before the ingestion worker task is
started. -/
theorem c6_hello_first (scheme : String) (withPyModes : Bool)
    (done : List (TaskId × TaskOutcome))
    (h : (main scheme withPyModes done).2 = MainResult.normal) :
    ∃ A B, (main scheme withPyModes done).1 = A ++ Effect.putHello :: B ∧
      Effect.putHello ∉ A ∧ Effect.putHello ∉ B ∧
      Effect.startTask TaskId.messageWorker ∉ A ∧
      Effect.startTask TaskId.messageWorker ∈ B := by
  cases h1 : pyContains scheme "http" with
  | true =>
    refine ⟨[Effect.connectCot, Effect.constructADSBWorker],
      [Effect.startTask TaskId.messageWorker, Effect.startTask TaskId.readWorker,
       Effect.startTask TaskId.writeWorker,
       Effect.wait WaitMode.firstCompleted
         [TaskId.messageWorker, TaskId.readWorker, TaskId.writeWorker]]
        ++ reportEffects done,
      ?_, ?_, ?_, ?_, ?_⟩
    · simp [main, h1]
    · simp
    · simp [reportEffects]
    · simp
    · simp
  | false =>
    cases h2 : pyContains scheme "tcp" with
    | true =>
      cases withPyModes with
      | false => simp [main, h1, h2] at h
      | true =>
        cases hdt : dataTypeOf scheme with
        | error e => simp [main, h1, h2, hdt] at h
        | ok dt =>
          refine ⟨[Effect.connectCot, Effect.constructADSBNetReceiver dt,
            Effect.startTask TaskId.netReceiver, Effect.constructADSBNetWorker dt],
            [Effect.startTask TaskId.messageWorker, Effect.startTask TaskId.readWorker,
             Effect.startTask TaskId.writeWorker,
             Effect.wait WaitMode.firstCompleted
               [TaskId.netReceiver, TaskId.messageWorker, TaskId.readWorker,
                TaskId.writeWorker]]
              ++ reportEffects done,
            ?_, ?_, ?_, ?_, ?_⟩
          · simp [main, h1, h2, hdt]
          · simp
          · simp [reportEffects]
          · simp
          · simp
    | false => simp [main, h1, h2] at h

/-- C6 witness: the statement evaluated at scheme "http". -/
theorem c6_witness :
    ∃ A B, (main "http" true []).1 = A ++ Effect.putHello :: B ∧
      Effect.putHello ∉ A ∧ Effect.putHello ∉ B ∧
      Effect.startTask TaskId.messageWorker ∉ A ∧
      Effect.startTask TaskId.messageWorker ∈ B :=
  c6_hello_first "http" true [] (by decide)

/-- C7: when the pipeline is entered, the started tasks are exactly the set
the wait is performed on: the message worker, the read worker and the write
worker always, plus the net receiver exactly in the non-http (stream)
case. -/
theorem c7_starts_all_tasks (scheme : String) (withPyModes : Bool)
    (done : List (TaskId × TaskOutcome))
    (h : (main scheme withPyModes done).2 = MainResult.normal) :
    ∃ ts, Effect.wait WaitMode.firstCompleted ts ∈ (main scheme withPyModes done).1 ∧
      (∀ t, Effect.startTask t ∈ (main scheme withPyModes done).1 ↔ t ∈ ts) ∧
      TaskId.messageWorker ∈ ts ∧ TaskId.readWorker ∈ ts ∧
      TaskId.writeWorker ∈ ts ∧
      (TaskId.netReceiver ∈ ts ↔ pyContains scheme "http" = false) := by
  cases h1 : pyContains scheme "http" with
  | true =>
    refine ⟨[TaskId.messageWorker, TaskId.readWorker, TaskId.writeWorker],
      ?_, ?_, by simp, by simp, by simp, by simp⟩
    · simp [main, h1, reportEffects]
    · intro t
      cases t <;> simp [main, h1, reportEffects]
  | false =>
    cases h2 : pyContains scheme "tcp" with
    | true =>
      cases withPyModes with
      | false => simp [main, h1, h2] at h
      | true =>
        cases hdt : dataTypeOf scheme with
        | error e => simp [main, h1, h2, hdt] at h
        | ok dt =>
          refine ⟨[TaskId.netReceiver, TaskId.messageWorker, TaskId.readWorker,
            TaskId.writeWorker], ?_, ?_, by simp, by simp, by simp, by simp⟩
          · simp [main, h1, h2, hdt, reportEffects]
          · intro t
            cases t <;> simp [main, h1, h2, hdt, reportEffects]
    | false => simp [main, h1, h2] at h

/-- C7 witness: the statement evaluated at scheme "tcp+beast". -/
theorem c7_witness :
    ∃ ts, Effect.wait WaitMode.firstCompleted ts ∈ (main "tcp+beast" true []).1 ∧
      (∀ t, Effect.startTask t ∈ (main "tcp+beast" true []).1 ↔ t ∈ ts) ∧
      TaskId.messageWorker ∈ ts ∧ TaskId.readWorker ∈ ts ∧
      TaskId.writeWorker ∈ ts ∧
      (TaskId.netReceiver ∈ ts ↔ pyContains "tcp+beast" "http" = false) :=
  c7_starts_all_tasks "tcp+beast" true [] (by decide)

/-- C10: in the stream case the net receiver task is started before the
hello event is put on the outbound queue, before the stream worker is even
constructed, and before the message, read and write worker tasks are
started. -/
theorem c10_receiver_started_first (scheme : String)
    (done : List (TaskId × TaskOutcome)) (dt : String)
    (hhttp : pyContains scheme "http" = false)
    (htcp : pyContains scheme "tcp" = true)
    (hdt : dataTypeOf scheme = Except.ok dt) :
    ∃ A B, (main scheme true done).1
        = A ++ Effect.startTask TaskId.netReceiver :: B ∧
      Effect.putHello ∉ A ∧ Effect.putHello ∈ B ∧
      (∀ d, Effect.constructADSBNetWorker d ∉ A) ∧
      Effect.constructADSBNetWorker dt ∈ B ∧
      Effect.startTask TaskId.messageWorker ∉ A ∧
      Effect.startTask TaskId.messageWorker ∈ B ∧
      Effect.startTask TaskId.readWorker ∉ A ∧
      Effect.startTask TaskId.readWorker ∈ B ∧
      Effect.startTask TaskId.writeWorker ∉ A ∧
      Effect.startTask TaskId.writeWorker ∈ B := by
  refine ⟨[Effect.connectCot, Effect.constructADSBNetReceiver dt],
    [Effect.constructADSBNetWorker dt, Effect.putHello,
     Effect.startTask TaskId.messageWorker, Effect.startTask TaskId.readWorker,
     Effect.startTask TaskId.writeWorker,
     Effect.wait WaitMode.firstCompleted
       [TaskId.netReceiver, TaskId.messageWorker, TaskId.readWorker,
        TaskId.writeWorker]]
      ++ reportEffects done,
    ?_, by simp, by simp, by simp, by simp, by simp, by simp, by simp, by simp,
    by simp, by simp⟩
  simp [main, hhttp, htcp, hdt]

/-- C10 witness: the statement evaluated at scheme "tcp+beast". -/
theorem c10_witness :
    ∃ A B, (main "tcp+beast" true []).1
        = A ++ Effect.startTask TaskId.netReceiver :: B ∧
      Effect.putHello ∉ A ∧ Effect.putHello ∈ B ∧
      (∀ d, Effect.constructADSBNetWorker d ∉ A) ∧
      Effect.constructADSBNetWorker "beast" ∈ B ∧
      Effect.startTask TaskId.messageWorker ∉ A ∧
      Effect.startTask TaskId.messageWorker ∈ B ∧
      Effect.startTask TaskId.readWorker ∉ A ∧
      Effect.startTask TaskId.readWorker ∈ B ∧
      Effect.startTask TaskId.writeWorker ∉ A ∧
      Effect.startTask TaskId.writeWorker ∈ B :=
  c10_receiver_started_first "tcp+beast" [] "beast"
    (by decide) (by decide) (by rfl)

end Adsbcot
